import Mathlib

/-!
Verification development for the RFC-merge automation core of the triagebot
repository (module src/rfc_merge_pr.rs, the complete draft of the pipeline;
src/bin/rfc_merge_pr.rs and src/handlers/rfc_merge_pr.rs are earlier partial
drafts of the same logic).

The Rust code is shallowly embedded: Rust `&str` operations are modelled as
computable functions over Lean `String` (implemented through the underlying
character list, matching the byte-for-byte behaviour of the Rust standard
library on the ASCII data these functions handle); fallible operations return
`Except`; every network call of the orchestrator goes through an explicit
`Gateway` record of response functions, so the pipeline itself is a pure
function of the gateway and the PR number.
-/

namespace RfcMergePr

/-! ### Character-list models of the Rust `str` primitives -/

/-- Model of Rust `str::strip_prefix` at the character-list level: if `pat` is
a prefix of `s`, return the remainder, else `none`. First argument is the
pattern. -/
def stripPfxL : List Char → List Char → Option (List Char)
  | [], s => some s
  | _ :: _, [] => none
  | p :: ps, c :: cs => if p = c then stripPfxL ps cs else none

/-- Model of Rust `str::strip_suffix`, via `stripPfxL` on the reversed list. -/
def stripSufL (pat s : List Char) : Option (List Char) :=
  (stripPfxL pat.reverse s.reverse).map List.reverse

/-- Model of Rust `str::trim_start` (whitespace on these inputs is ASCII, where
`Char.isWhitespace` and Rust `char::is_whitespace` agree). -/
def trimLeftL (s : List Char) : List Char := s.dropWhile Char.isWhitespace

/-- Model of Rust `str::trim_end`, by structural recursion. -/
def trimRightL : List Char → List Char
  | [] => []
  | c :: cs =>
    match trimRightL cs with
    | [] => if c.isWhitespace then [] else [c]
    | r => c :: r

/-- Model of Rust `str::trim`. -/
def trimL (s : List Char) : List Char := trimRightL (trimLeftL s)

/-- String-level `strip_prefix`. -/
def strip_pre (s pat : String) : Option String :=
  (stripPfxL pat.data s.data).map String.mk

/-- String-level `strip_suffix`. -/
def strip_suf (s pat : String) : Option String :=
  (stripSufL pat.data s.data).map String.mk

/-- String-level `trim`. -/
def trimS (s : String) : String := String.mk (trimL s.data)

/-- Model of Rust `str::starts_with`. -/
def starts_with (s pat : String) : Bool := (stripPfxL pat.data s.data).isSome

/-- Model of Rust `str::ends_with`. -/
def ends_with (s pat : String) : Bool := (stripSufL pat.data s.data).isSome

/-! ### Lemmas about the string primitives -/

theorem stripPfxL_append (p r : List Char) : stripPfxL p (p ++ r) = some r := by
  induction p with
  | nil => rfl
  | cons c cs ih => simp [stripPfxL, ih]

theorem stripPfxL_eq_some (p : List Char) :
    ∀ s r : List Char, stripPfxL p s = some r → s = p ++ r := by
  induction p with
  | nil =>
    intro s r h
    simp only [stripPfxL, Option.some.injEq] at h
    simpa using h
  | cons c cs ih =>
    intro s r h
    cases s with
    | nil => exact absurd h (by simp [stripPfxL])
    | cons d ds =>
      by_cases hc : c = d
      · subst hc
        simp only [stripPfxL, if_pos rfl] at h
        simpa using ih ds r h
      · simp [stripPfxL, hc] at h

theorem stripSufL_append (q r : List Char) : stripSufL q (r ++ q) = some r := by
  simp [stripSufL, List.reverse_append, stripPfxL_append]

theorem starts_with_append (p r : String) :
    starts_with (String.mk (p.data ++ r.data)) p = true := by
  simp [starts_with, stripPfxL_append]

theorem ends_with_append (r q : String) :
    ends_with (String.mk (r.data ++ q.data)) q = true := by
  simp [ends_with, stripSufL_append]

theorem length_dropWhile_le (p : Char → Bool) (l : List Char) :
    (l.dropWhile p).length ≤ l.length := by
  induction l with
  | nil => simp
  | cons c cs ih =>
    by_cases h : p c
    · simp only [List.dropWhile_cons, h, if_true, List.length_cons]
      omega
    · simp [List.dropWhile_cons, h]

theorem dropWhile_idem (p : Char → Bool) (l : List Char) :
    List.dropWhile p (List.dropWhile p l) = List.dropWhile p l := by
  induction l with
  | nil => simp
  | cons c cs ih =>
    by_cases h : p c <;> simp [List.dropWhile_cons, h, ih]

theorem trimLeftL_idem (l : List Char) : trimLeftL (trimLeftL l) = trimLeftL l :=
  dropWhile_idem _ l

theorem head_not_wsp_of_trimLeftL_fixed (c : Char) (cs : List Char)
    (h : trimLeftL (c :: cs) = c :: cs) : c.isWhitespace = false := by
  by_cases hc : c.isWhitespace
  · exfalso
    rw [trimLeftL, List.dropWhile_cons, if_pos hc] at h
    have hlen := congrArg List.length h
    have hle := length_dropWhile_le Char.isWhitespace cs
    simp at hlen
    omega
  · simpa using hc

theorem trimRightL_cons (c : Char) (cs : List Char) :
    trimRightL (c :: cs) =
      match trimRightL cs with
      | [] => if c.isWhitespace then [] else [c]
      | r => c :: r := rfl

theorem trimRightL_idem (l : List Char) : trimRightL (trimRightL l) = trimRightL l := by
  induction l with
  | nil => rfl
  | cons c cs ih =>
    rw [trimRightL_cons c cs]
    cases h : trimRightL cs with
    | nil =>
      by_cases hc : c.isWhitespace
      · rw [if_pos hc]; rfl
      · rw [if_neg hc, trimRightL_cons c []]
        simp [show trimRightL [] = [] from rfl, hc]
    | cons r rs =>
      rw [h] at ih
      rw [trimRightL_cons c (r :: rs), ih]

theorem trimLeftL_trimRightL_of_fixed (l : List Char) (h : trimLeftL l = l) :
    trimLeftL (trimRightL l) = trimRightL l := by
  cases l with
  | nil => rfl
  | cons c cs =>
    have hc : c.isWhitespace = false := head_not_wsp_of_trimLeftL_fixed c cs h
    cases hr : trimRightL cs with
    | nil => simp [trimRightL, hr, hc, trimLeftL, List.dropWhile_cons]
    | cons r rs => simp [trimRightL, hr, trimLeftL, List.dropWhile_cons, hc]

theorem trimL_idem (l : List Char) : trimL (trimL l) = trimL l := by
  unfold trimL
  have h1 : trimLeftL (trimLeftL l) = trimLeftL l := trimLeftL_idem l
  have h2 : trimLeftL (trimRightL (trimLeftL l)) = trimRightL (trimLeftL l) :=
    trimLeftL_trimRightL_of_fixed _ h1
  rw [h2, trimRightL_idem]

theorem trimRightL_append_last (x : List Char) (c : Char) (hc : c.isWhitespace = false) :
    trimRightL (x ++ [c]) = x ++ [c] := by
  induction x with
  | nil => simp [trimRightL, hc]
  | cons a x ih =>
    rw [List.cons_append, trimRightL_cons, ih]
    cases h : x ++ [c] with
    | nil => exact absurd h (by simp)
    | cons r rs => rfl

theorem trimLeftL_cons_not_wsp (c : Char) (cs : List Char) (hc : c.isWhitespace = false) :
    trimLeftL (c :: cs) = c :: cs := by
  simp [trimLeftL, List.dropWhile_cons, hc]

theorem trimS_idem (s : String) : trimS (trimS s) = trimS s := by
  simp [trimS, trimL_idem]

/-! ### Model of Rust `str::lines` -/

/-- Split a character list at every newline character; returns the first
segment and the list of later segments. -/
def splitNLAux : List Char → List Char × List (List Char)
  | [] => ([], [])
  | c :: cs =>
    let p := splitNLAux cs
    if c = '\n' then ([], p.1 :: p.2) else (c :: p.1, p.2)

/-- Strip one trailing carriage return, as Rust `str::lines` does for every
newline-terminated line. -/
def stripCR (l : List Char) : List Char :=
  match stripSufL ['\r'] l with
  | some l2 => l2
  | none => l

/-- Post-process the newline-split segments the way Rust `str::lines` presents
them: every segment but the last was newline-terminated and loses a trailing
carriage return; a final empty segment (text ending in a newline, or empty
text) yields no line. -/
def rustLinesList : List (List Char) → List (List Char)
  | [] => []
  | [last] => if last = [] then [] else [last]
  | p :: rest => stripCR p :: rustLinesList rest

/-- Model of Rust `str::lines`, collected into a list. -/
def rustLines (s : String) : List String :=
  let p := splitNLAux s.data
  (rustLinesList (p.1 :: p.2)).map String.mk

/-! ### Error taxonomy

Each constructor corresponds to one `anyhow!` call site of
src/rfc_merge_pr.rs and carries exactly the data that call site formats into
its message; `gateway` stands for an error reported by a network call
(octocrab / reqwest), and `templateRender` for a tera rendering failure. -/

inductive MergeErr where
  /-- "no remote repo found for PR \x7bpr_num\x7d" in `find_branch_repo`. -/
  | noRemoteRepo (pr_num : Nat)
  /-- "expected one rfc file, found \x7bcount\x7d: \x7bfilenames\x7d" in `find_text_filename`. -/
  | expectedOneRfcFile (count : Nat) (filenames : List String)
  /-- "RFC for \x7brepo\x7d/\x7bbranch\x7d/\x7bpath\x7d not found" in `extract_rfc_header`. -/
  | rfcNotFound (repo branch path : String)
  /-- "missing line \x7bn\x7d" in `extract_rfc_header`. -/
  | missingLine (n : Nat)
  /-- "malformed feature line: \x7bline\x7d" in `extract_rfc_header`. -/
  | malformedFeatureLine (line : String)
  /-- "malformed start date line: \x7bline\x7d" in `extract_rfc_header`. -/
  | malformedStartDateLine (line : String)
  /-- "malformed rfc pr line: \x7bline\x7d" in `extract_rfc_header`. -/
  | malformedRfcPrLine (line : String)
  /-- "header feature line did not match template; needs to start with ..." in
  `Header::feature_name`. -/
  | featureLineTemplate
  /-- "malformed rust issue line: \x7bline\x7d" in `extract_rfc_header`. -/
  | malformedRustIssueLine (line : String)
  /-- A transport-level error from a gateway (network) call. -/
  | gateway (msg : String)
  /-- A tera template rendering failure in `create_tracking_issue`. -/
  | templateRender (msg : String)
  /-- `u64::try_from` failure on the created issue number in `merge`. -/
  | tryFromInt
  /-- The final `anyhow!("unfinished business")` of `merge`. -/
  | unfinishedBusiness
  deriving DecidableEq

/-! ### Data model -/

/-- The four raw header lines of the RFC document (struct `Header`). -/
structure Header where
  feature_name : String
  start_date : String
  rfc_pr : String
  rust_issue : String
  deriving DecidableEq

/-- The normalization pipeline applied by `Header::feature_name` after the
template prefix has been stripped: trim, strip one leading backtick if
present, strip one trailing backtick if present, trim again. -/
def featureContent (s0 : String) : String :=
  let s1 := trimS s0
  let s2 := ((strip_pre s1 "`").getD s1 : String)
  let s3 := ((strip_suf s2 "`").getD s2 : String)
  trimS s3

/-- Method `Header::feature_name`: extract the feature identifier from the
raw feature-name line. Named `featureName` because in Lean the field
projection already takes the source name. -/
def Header.featureName (h : Header) : Except MergeErr (Option String) :=
  match strip_pre h.feature_name "- Feature Name: " with
  | none => .error .featureLineTemplate
  | some s0 =>
    if featureContent s0 = "N/A" then .ok none
    else if featureContent s0 = "" then .ok none
    else .ok (some (featureContent s0))

/-- One entry of the PR changed-file list (only the `filename` field of the
diff entries is consulted). -/
structure FileDiff where
  filename : String
  deriving DecidableEq

/-- The pure core of `ExtractInfo::find_text_filename`: filter the changed
files by the `"text/"` path prefix; succeed only on a unique candidate,
otherwise report the candidate count and every filename that was considered. -/
def find_text_filename (file_diff_list : List FileDiff) : Except MergeErr String :=
  let candidates := file_diff_list.filter fun d => starts_with d.filename "text/"
  match candidates with
  | [c] => .ok c.filename
  | other =>
    .error (.expectedOneRfcFile other.length (file_diff_list.map fun d => d.filename))

/-- The pure line-consuming part of `ExtractInfo::extract_rfc_header`:
`text.lines().take(4)` followed by four `next()` calls and the four prefix
checks, in source order. -/
def parse_header_lines : List String → Except MergeErr Header
  | [] => .error (.missingLine 1)
  | [_] => .error (.missingLine 2)
  | [_, _] => .error (.missingLine 3)
  | [_, _, _] => .error (.missingLine 4)
  | feature_name :: start_date :: rfc_pr :: rust_issue :: _ =>
    if starts_with feature_name "- Feature Name: `" = false then
      .error (.malformedFeatureLine feature_name)
    else if starts_with start_date "- Start Date: " = false then
      .error (.malformedStartDateLine start_date)
    else if starts_with rfc_pr "- RFC PR: " = false then
      .error (.malformedRfcPrLine rfc_pr)
    else if starts_with rust_issue "- Rust Issue: " = false then
      .error (.malformedRustIssueLine rust_issue)
    else
      .ok { feature_name := feature_name, start_date := start_date,
            rfc_pr := rfc_pr, rust_issue := rust_issue }

/-- `ExtractInfo::extract_rfc_header` applied to already-fetched raw text. -/
def extract_rfc_header_text (text : String) : Except MergeErr Header :=
  parse_header_lines ((rustLines text).take 4)

/-! ### Repository and pull-request identifiers -/

/-- struct `github::Repository` (only the full name is used here). -/
structure Repository where
  full_name : String
  deriving DecidableEq

/-- struct `github::PullRequestId`. -/
structure PullRequestId where
  repo : Repository
  pull_number : Nat
  deriving DecidableEq

/-- struct `OrgRepo`. -/
structure OrgRepo where
  org : String
  repo : String
  deriving DecidableEq

def OrgRepo.full_name (r : OrgRepo) : String := r.org ++ "/" ++ r.repo

def OrgRepo.pull_request (r : OrgRepo) (pr_num : Nat) : PullRequestId :=
  { repo := { full_name := r.full_name }, pull_number := pr_num }

/-- The active repository pair: module `testing` is selected by the `use`
line at the top of src/rfc_merge_pr.rs. -/
def RFCS_REPO : OrgRepo := { org := "pnkfx", repo := "rfcs-play" }

def RUST_REPO : OrgRepo := { org := "pnkfelix", repo := "triagebot-playpen" }

/-- struct `BranchRepo`: where the PR's head branch lives. -/
structure BranchRepo where
  repo_full_name : String
  branch : String
  deriving DecidableEq

/-- The head-repository reference of the fetched PR metadata
(`pr.head.repo`, `None` when the branch/fork is gone). -/
structure HeadRepo where
  full_name : String
  deriving DecidableEq

/-- The `head` part of the PR metadata returned by the pulls gateway. -/
structure PrHead where
  repo : Option HeadRepo
  ref_field : String
  deriving DecidableEq

/-- A created issue, as returned by the issues gateway; octocrab reports the
number as a signed integer which `merge` converts with `u64::try_from`. -/
structure Issue where
  number : Int
  deriving DecidableEq

/-- enum `github::DiffSide`. -/
inductive DiffSide where
  | Left
  | Right
  deriving DecidableEq

/-- The `MultiLine` variant of `github::ReviewCommentDiffAddress`. -/
structure ReviewCommentDiffAddress where
  commit_id : String
  path : String
  first : Nat × DiffSide
  last : Nat × DiffSide
  deriving DecidableEq

/-- A review comment: an address paired with its body
(`ReviewCommentDiffAddress::comment`). -/
structure ReviewComment where
  address : ReviewCommentDiffAddress
  body : String
  deriving DecidableEq

/-- The posted comment returned by the review-comment gateway call (only its
body is read back). -/
structure PostedComment where
  body : String
  deriving DecidableEq

/-- struct `InFlight` (the client handles `gh`/`oc` are represented by the
explicit `Gateway` argument of each step). -/
structure InFlight where
  pr : PullRequestId
  branch_repo : BranchRepo
  rfc_title : String
  text_filename : String
  header : Header
  deriving DecidableEq

/-! ### The repository gateway

Every network call of the pipeline, as a record of pure response functions;
quantifying over a `Gateway` quantifies over every possible sequence of
responses. -/

structure Gateway where
  get_pull_request : Nat → Except MergeErr PrHead
  get_title : PullRequestId → Except MergeErr String
  get_file_list : PullRequestId → Except MergeErr (List FileDiff)
  raw_file : String → String → String → Except MergeErr (Option String)
  create_issue : String → String → Except MergeErr Issue
  post_review_comment : PullRequestId → ReviewComment → Except MergeErr PostedComment

/-! ### Orchestrator steps -/

/-- `find_branch_repo`: derive the branch source from the PR metadata; fail
when the head repository reference is absent. -/
def find_branch_repo (gw : Gateway) (pr_num : Nat) : Except MergeErr BranchRepo := do
  let pr ← gw.get_pull_request pr_num
  match pr.repo with
  | some repo => .ok { repo_full_name := repo.full_name, branch := pr.ref_field }
  | none => .error (.noRemoteRepo pr_num)

/-- `ExtractInfo::find_text_filename`: fetch the changed-file list, then run
the pure filter. (The source re-issues the same list request to format the
error message; the model reuses the fetched list.) -/
def find_text_filename_step (gw : Gateway) (pr : PullRequestId) : Except MergeErr String := do
  let file_diff_list ← gw.get_file_list pr
  find_text_filename file_diff_list

/-- `ExtractInfo::extract_rfc_header`: fetch the raw file at the branch
source (`None` means not found) and parse the header out of it. -/
def extract_rfc_header_step (gw : Gateway) (branch_repo : BranchRepo)
    (text_filename : String) : Except MergeErr Header := do
  let content ← gw.raw_file branch_repo.repo_full_name branch_repo.branch text_filename
  match content with
  | none => .error (.rfcNotFound branch_repo.repo_full_name branch_repo.branch text_filename)
  | some text => extract_rfc_header_text text

/-- Modelled from the spec: the tera template `tracking_issue.tt` rendered by
`create_tracking_issue` is not under src/. Per spec §4.3 the body is a fixed
boilerplate with the substitution variables FEATURE (present only when a
feature identifier exists), PR_NUM and TITLE. -/
def render_tracking_issue_body (feature : Option String) (pr_num : Nat)
    (title : String) : String :=
  "This is a tracking issue for the RFC \"" ++ title ++ "\" (rust-lang/rfcs#"
    ++ toString pr_num ++ ").\n"
    ++ (match feature with
        | some f => "The feature gate for the issue is `#![feature(" ++ f ++ ")]`.\n"
        | none => "")
    ++ "\n### About tracking issues\n### Steps\n### Unresolved Questions\n### Implementation history\n"

/-- The deterministic tracking-issue title of `InFlight::create_tracking_issue`. -/
def tracking_issue_title (pull_number : Nat) (rfc_title : String) : String :=
  "Tracking Issue for RFC " ++ toString pull_number ++ ": " ++ rfc_title

/-- The pure composition of the tracking issue (spec §4.3 `compose`). -/
def compose_tracking_issue (pull_number : Nat) (rfc_title : String)
    (feature : Option String) : String × String :=
  (tracking_issue_title pull_number rfc_title,
   render_tracking_issue_body feature pull_number rfc_title)

/-- `InFlight::create_tracking_issue`: compose title and body and call the
issues gateway on the target repository. -/
def create_tracking_issue (gw : Gateway) (inf : InFlight) : Except MergeErr Issue := do
  let title := tracking_issue_title inf.pr.pull_number inf.rfc_title
  let fid ← Header.featureName inf.header
  let body := render_tracking_issue_body fid inf.pr.pull_number inf.rfc_title
  gw.create_issue title body

/-- The suggested-change body built by `InFlight::update_rfc_header_text`. -/
def update_rfc_header_body (header : Header) (tracking_issue : Nat)
    (pull_number : Nat) : Except MergeErr String := do
  let fid ← Header.featureName header
  let feature_line := ((fid.map fun f => "- Feature Name: `" ++ f ++ "`\n").getD "" : String)
  .ok ("```suggestion\n" ++ feature_line ++ header.start_date
    ++ "\n- RFC PR: [rust-lang/rfcs#" ++ toString pull_number
    ++ "](https://github.com/rust-lang/rfcs/pull/" ++ toString pull_number
    ++ ")\n- Rust Issue: [rust-lang/rust#" ++ toString tracking_issue
    ++ "](https://github.com/rust-lang/rust/issues/" ++ toString tracking_issue
    ++ ")\n```\n")

/-- The review-comment address-and-body record built by
`InFlight::update_rfc_header_text` (the commit id is the hard-coded literal of
the source, marked there with a FIXME). -/
def update_rfc_header_comment (text_filename : String) (body : String) : ReviewComment :=
  { address :=
      { commit_id := "a8886a1a2d5edb9c247922e8058fb0a573f0755b",
        path := text_filename,
        first := (1, DiffSide.Right),
        last := (4, DiffSide.Right) },
    body := body }

/-- `InFlight::update_rfc_header_text`: compose the suggestion body, post it
as a review comment, and return the posted body. -/
def update_rfc_header_text (gw : Gateway) (inf : InFlight)
    (tracking_issue : Nat) : Except MergeErr String := do
  let body ← update_rfc_header_body inf.header tracking_issue inf.pr.pull_number
  let c ← gw.post_review_comment inf.pr (update_rfc_header_comment inf.text_filename body)
  .ok c.body

/-- `u64::try_from` on the octocrab issue number. -/
def u64_try_from (i : Int) : Except MergeErr Nat :=
  if 0 ≤ i then .ok i.toNat else .error .tryFromInt

/-- The top-level `merge` pipeline of src/rfc_merge_pr.rs. -/
def merge (gw : Gateway) (pr_num : Nat) : Except MergeErr Unit := do
  let branch_repo ← find_branch_repo gw pr_num
  let pr := RFCS_REPO.pull_request pr_num
  let rfc_title ← gw.get_title pr
  let filename ← find_text_filename_step gw pr
  let header ← extract_rfc_header_step gw branch_repo filename
  let inf : InFlight :=
    { pr := pr, branch_repo := branch_repo, rfc_title := rfc_title,
      text_filename := filename, header := header }
  let tracking_issue ← create_tracking_issue gw inf
  let tnum ← u64_try_from tracking_issue.number
  let _ ← update_rfc_header_text gw inf tnum
  .error .unfinishedBusiness

/-! ### Spec-side definitions

These two definitions follow the spec's words rather than the source; they
are compared against the source-derived definitions by the theorems below. -/

/-- The named pieces of the suggested-change block described in spec §4.4:
the optional rewritten feature line, and the two rewritten markdown-link
lines carrying the PR number and the tracking-issue number. -/
def feature_line_of (fid : Option String) : String :=
  ((fid.map fun f => "- Feature Name: `" ++ f ++ "`\n").getD "" : String)

def rfc_pr_line (n : Nat) : String :=
  "- RFC PR: [rust-lang/rfcs#" ++ toString n
    ++ "](https://github.com/rust-lang/rfcs/pull/" ++ toString n ++ ")"

def rust_issue_line (t : Nat) : String :=
  "- Rust Issue: [rust-lang/rust#" ++ toString t
    ++ "](https://github.com/rust-lang/rust/issues/" ++ toString t ++ ")"

/-- The reconstruction described in spec §8: rebuild the header lines from a
parsed `Header`, emitting the feature line only when a feature identifier is
present. -/
def reconstruct_header_lines (h : Header) : Except MergeErr (List String) := do
  let fid ← Header.featureName h
  .ok ((match fid with
        | some f => ["- Feature Name: `" ++ f ++ "`"]
        | none => []) ++ [h.start_date, h.rfc_pr, h.rust_issue])

/-! ### General lemmas -/

theorem ok_bind {α β : Type} (a : α) (f : α → Except MergeErr β) :
    (Except.ok a >>= f) = f a := rfl

theorem error_bind {α β : Type} (e : MergeErr) (f : α → Except MergeErr β) :
    ((Except.error e : Except MergeErr α) >>= f) = .error e := rfl

theorem exists_error_bind {α β : Type} (x : Except MergeErr α)
    (f : α → Except MergeErr β) (h : ∀ a, ∃ e, f a = .error e) :
    ∃ e, (x >>= f) = .error e := by
  cases x with
  | error e => exact ⟨e, rfl⟩
  | ok a => rw [ok_bind]; exact h a

theorem starts_with_append_left (p r : String) : starts_with (p ++ r) p = true := by
  simp [starts_with, String.data_append, stripPfxL_append]

theorem ends_with_append_right (r q : String) : ends_with (r ++ q) q = true := by
  simp [ends_with, String.data_append, stripSufL_append]

theorem data_mk (l : List Char) : (String.mk l).data = l := rfl

/-- The backtick character (code point 96), named so that the code-span
reasoning below never spells the character itself. -/
def tick : Char := Char.ofNat 96

theorem mk_data (s : String) : String.mk s.data = s := rfl

/-! ### Lemmas about the feature-name accessor -/

theorem featureContent_trim_fixed (s0 : String) :
    trimS (featureContent s0) = featureContent s0 := by
  unfold featureContent
  exact trimS_idem _

/-- The normalized content of a backtick-wrapped trim-fixed identifier is the
identifier itself: rendering `f` as a code span and normalizing again cancels
out. -/
theorem featureContent_wrap (f : String) (h3 : trimS f = f) :
    featureContent (String.mk (tick :: (f.data ++ [tick]))) = f := by
  have ht : trimS (String.mk (tick :: (f.data ++ [tick])))
      = String.mk (tick :: (f.data ++ [tick])) := by
    unfold trimS trimL
    rw [data_mk, trimLeftL_cons_not_wsp _ _ (by decide)]
    rw [show (tick :: (f.data ++ [tick])) = (tick :: f.data) ++ [tick] by simp]
    rw [trimRightL_append_last _ _ (by decide)]
  have h2 : strip_pre (String.mk (tick :: (f.data ++ [tick]))) "`"
      = some (String.mk (f.data ++ [tick])) := by
    unfold strip_pre
    rw [show ("`" : String).data = [tick] from rfl, data_mk]
    simp [stripPfxL]
  have hsf : strip_suf (String.mk (f.data ++ [tick])) "`" = some f := by
    unfold strip_suf
    rw [show ("`" : String).data = [tick] from rfl, data_mk, stripSufL_append]
    simp [mk_data]
  unfold featureContent
  simp only [ht, h2, Option.getD_some, hsf]
  exact h3

/-- Computing `strip_pre` on the rendered feature line. -/
theorem strip_pre_rendered (f : String) :
    strip_pre ("- Feature Name: `" ++ f ++ "`") "- Feature Name: "
      = some (String.mk (tick :: (f.data ++ [tick]))) := by
  unfold strip_pre
  have hd : ("- Feature Name: `" ++ f ++ "`").data
      = ("- Feature Name: " : String).data ++ (tick :: (f.data ++ [tick])) := by
    rw [String.data_append, String.data_append]
    rw [show ("- Feature Name: `" : String).data
        = ("- Feature Name: " : String).data ++ [tick] from rfl]
    rw [show ("`" : String).data = [tick] from rfl]
    simp [List.append_assoc]
  rw [hd, stripPfxL_append]
  rfl

/-- Reduction of the accessor once the template strip has succeeded. -/
theorem featureName_eq_of_strip (h : Header) (s0 : String)
    (hsp : strip_pre h.feature_name "- Feature Name: " = some s0) :
    Header.featureName h =
      (if featureContent s0 = "N/A" then .ok none
       else if featureContent s0 = "" then .ok none
       else .ok (some (featureContent s0))) := by
  unfold Header.featureName
  rw [hsp]

/-- Reduction of the accessor when the template strip fails. -/
theorem featureName_eq_of_strip_none (h : Header)
    (hsp : strip_pre h.feature_name "- Feature Name: " = none) :
    Header.featureName h = .error .featureLineTemplate := by
  unfold Header.featureName
  rw [hsp]

/-- The feature accessor on a rendered feature line recovers the identifier,
provided the identifier is trim-fixed and is neither of the two "no feature"
tokens (all of which hold for any identifier the accessor itself produced). -/
theorem featureName_rendered (f a b c : String)
    (h1 : f ≠ "N/A") (h2 : f ≠ "") (h3 : trimS f = f) :
    Header.featureName
        { feature_name := "- Feature Name: `" ++ f ++ "`",
          start_date := a, rfc_pr := b, rust_issue := c }
      = .ok (some f) := by
  rw [featureName_eq_of_strip _ _ (strip_pre_rendered f)]
  rw [featureContent_wrap f h3, if_neg h1, if_neg h2]

/-- Inversion: when the accessor returns an identifier, that identifier is
trim-fixed and is neither "N/A" nor empty. -/
theorem featureName_some_inv (h : Header) (f : String)
    (hf : Header.featureName h = .ok (some f)) :
    f ≠ "N/A" ∧ f ≠ "" ∧ trimS f = f := by
  cases hsp : strip_pre h.feature_name "- Feature Name: " with
  | none =>
    rw [featureName_eq_of_strip_none h hsp] at hf
    exact absurd hf (by simp)
  | some s0 =>
    rw [featureName_eq_of_strip h s0 hsp] at hf
    by_cases hNA : featureContent s0 = "N/A"
    · rw [if_pos hNA] at hf; exact absurd hf (by simp)
    · rw [if_neg hNA] at hf
      by_cases hE : featureContent s0 = ""
      · rw [if_pos hE] at hf; exact absurd hf (by simp)
      · rw [if_neg hE] at hf
        have hfc : featureContent s0 = f := by simpa using hf
        subst hfc
        exact ⟨hNA, hE, featureContent_trim_fixed s0⟩

theorem stripSufL_eq_some (q s r : List Char) (h : stripSufL q s = some r) :
    s = r ++ q := by
  unfold stripSufL at h
  cases hp : stripPfxL q.reverse s.reverse with
  | none => rw [hp] at h; simp at h
  | some y =>
    rw [hp] at h
    simp at h
    have hs : s.reverse = q.reverse ++ y := stripPfxL_eq_some q.reverse s.reverse y hp
    calc s = s.reverse.reverse := (List.reverse_reverse s).symm
    _ = (q.reverse ++ y).reverse := by rw [hs]
    _ = y.reverse ++ q := by simp [List.reverse_append]
    _ = r ++ q := by rw [h]

theorem ends_with_of_append (a b q : String) (h : ends_with b q = true) :
    ends_with (a ++ b) q = true := by
  unfold ends_with at h ⊢
  cases hsb : stripSufL q.data b.data with
  | none => rw [hsb] at h; simp at h
  | some y =>
    have hb : b.data = y ++ q.data := stripSufL_eq_some q.data b.data y hsb
    rw [String.data_append, hb, ← List.append_assoc, stripSufL_append]
    rfl

/-! ### Concrete fixtures shared by the witnesses -/

/-- A gateway whose PR metadata has no head repository (deleted fork), used
to exercise the orchestrator on concrete runs. -/
def stubGw : Gateway :=
  { get_pull_request := fun _ => .ok { repo := none, ref_field := "patch-1" },
    get_title := fun _ => .ok "Some RFC",
    get_file_list := fun _ => .ok [],
    raw_file := fun _ _ _ => .ok none,
    create_issue := fun _ _ => .ok { number := 1 },
    post_review_comment := fun _ _ => .ok { body := "" } }

/-- A concrete in-flight state for exercising the composers. -/
def inf0 : InFlight :=
  { pr := RFCS_REPO.pull_request 42,
    branch_repo := { repo_full_name := "alice/rfcs", branch := "feature-x" },
    rfc_title := "Some RFC",
    text_filename := "text/0000-foo.md",
    header := { feature_name := "- Feature Name: `foo`",
                start_date := "- Start Date: 2024-01-01",
                rfc_pr := "- RFC PR: x",
                rust_issue := "- Rust Issue: y" } }

/-! ### The claims -/

/-- C1: for every changed-file list in which exactly one path matches the
configured `"text/"` prefix, `find_text_filename` returns that path; for a
list with zero or two-or-more matching paths it fails with an error carrying
the match count and all considered paths. -/
theorem C1_locate_document (l : List FileDiff) :
    (∀ c : FileDiff,
        l.filter (fun d => starts_with d.filename "text/") = [c] →
        find_text_filename l = .ok c.filename) ∧
    ((l.filter (fun d => starts_with d.filename "text/")).length ≠ 1 →
      find_text_filename l =
        .error (.expectedOneRfcFile
          (l.filter (fun d => starts_with d.filename "text/")).length
          (l.map fun d => d.filename))) := by
  constructor
  · intro c hc
    unfold find_text_filename
    rw [hc]
  · intro hne
    unfold find_text_filename
    cases hc : l.filter (fun d => starts_with d.filename "text/") with
    | nil => rfl
    | cons a t =>
      cases t with
      | nil => rw [hc] at hne; simp at hne
      | cons b t2 => rfl

/-- C1 witness: the spec scenarios — a unique match among
`["text/0000-foo.md", "README.md"]` is selected, and two matching files
produce the error listing both. -/
theorem C1_locate_document_witness :
    find_text_filename [⟨"text/0000-foo.md"⟩, ⟨"README.md"⟩] = .ok "text/0000-foo.md" ∧
    find_text_filename [⟨"text/a.md"⟩, ⟨"text/b.md"⟩] =
      .error (.expectedOneRfcFile 2 ["text/a.md", "text/b.md"]) :=
  ⟨(C1_locate_document [⟨"text/0000-foo.md"⟩, ⟨"README.md"⟩]).1
      ⟨"text/0000-foo.md"⟩ (by decide),
   (C1_locate_document [⟨"text/a.md"⟩, ⟨"text/b.md"⟩]).2 (by decide)⟩

/-- C2: whenever the feature line carries the template prefix, the accessor
returns the trimmed, unquoted, re-trimmed remainder, and returns no feature
exactly when that normalized remainder is the literal "N/A" or empty; in
particular the three example lines of the spec map as claimed. -/
theorem C2_feature_identifier (h : Header) (rest : String)
    (hp : strip_pre h.feature_name "- Feature Name: " = some rest) :
    Header.featureName h =
      .ok (if featureContent rest = "N/A" ∨ featureContent rest = "" then none
           else some (featureContent rest)) ∧
    Header.featureName ⟨"- Feature Name: `foo`", "", "", ""⟩ = .ok (some "foo") ∧
    Header.featureName ⟨"- Feature Name: N/A", "", "", ""⟩ = .ok none ∧
    Header.featureName ⟨"- Feature Name: ", "", "", ""⟩ = .ok none := by
  refine ⟨?_, rfl, rfl, rfl⟩
  rw [featureName_eq_of_strip h rest hp]
  by_cases hNA : featureContent rest = "N/A"
  · simp [hNA]
  · by_cases hE : featureContent rest = ""
    · simp [hNA, hE]
    · simp [hNA, hE]

/-- C2 witness: a feature line with inner spacing and backticks normalizes to
its identifier. -/
theorem C2_feature_identifier_witness :
    Header.featureName ⟨"- Feature Name: ` foo `", "", "", ""⟩ = .ok (some "foo") := by
  have h := (C2_feature_identifier ⟨"- Feature Name: ` foo `", "", "", ""⟩ "` foo `" rfl).1
  rw [h]
  rfl

/-- C4 (code bug): the review comment built by `update_rfc_header_text` does
use the 1-based inclusive line range 1–4 on the right side of the diff, but
its commit identifier is the hard-coded literal
"a8886a1a2d5edb9c247922e8058fb0a573f0755b" for every input, rather than an
identifier supplied by the orchestrator. -/
theorem C4_commit_id_hardcoded :
    (update_rfc_header_comment "text/0000-foo.md" "suggestion-body").address.commit_id
      = "a8886a1a2d5edb9c247922e8058fb0a573f0755b" ∧
    (update_rfc_header_comment "text/0000-foo.md" "suggestion-body").address.first
      = (1, DiffSide.Right) ∧
    (update_rfc_header_comment "text/0000-foo.md" "suggestion-body").address.last
      = (4, DiffSide.Right) ∧
    ∀ fn b : String,
      (update_rfc_header_comment fn b).address.commit_id
        = "a8886a1a2d5edb9c247922e8058fb0a573f0755b" :=
  ⟨rfl, rfl, rfl, fun _ _ => rfl⟩

/-- C6: raw text with fewer than four lines makes the header parser fail with
the missing-line (truncated document) error naming the first absent line, and
no Header is produced. -/
theorem C6_truncated_document (text : String)
    (hlen : (rustLines text).length < 4) :
    extract_rfc_header_text text =
      .error (.missingLine ((rustLines text).length + 1)) ∧
    ∀ hd : Header, extract_rfc_header_text text ≠ .ok hd := by
  have key : extract_rfc_header_text text =
      .error (.missingLine ((rustLines text).length + 1)) := by
    unfold extract_rfc_header_text
    cases hL : rustLines text with
    | nil => rfl
    | cons a t =>
      cases t with
      | nil => rfl
      | cons b t2 =>
        cases t2 with
        | nil => rfl
        | cons c t3 =>
          cases t3 with
          | nil => rfl
          | cons d t4 =>
            rw [hL] at hlen
            simp at hlen
            omega
  refine ⟨key, fun hd hok => ?_⟩
  rw [key] at hok
  exact absurd hok (by simp)

/-- C6 witness: a three-line document is rejected with the missing-line-4
error. -/
theorem C6_truncated_document_witness :
    (rustLines "- Feature Name: `foo`\n- Start Date: 2024-01-01\n- RFC PR: x").length < 4 ∧
    extract_rfc_header_text "- Feature Name: `foo`\n- Start Date: 2024-01-01\n- RFC PR: x" =
      .error (.missingLine
        ((rustLines "- Feature Name: `foo`\n- Start Date: 2024-01-01\n- RFC PR: x").length + 1)) :=
  ⟨by decide,
   (C6_truncated_document
      "- Feature Name: `foo`\n- Start Date: 2024-01-01\n- RFC PR: x" (by decide)).1⟩

/-- C5: on text with at least four lines the parser checks the four required
prefixes in the fixed order feature-name, start-date, source-PR, target-issue;
the first violated prefix produces the malformed error naming that very line,
and a Header is produced only when all four checks pass (and then it holds
exactly the four lines). -/
theorem C5_prefix_validation (text l1 l2 l3 l4 : String)
    (h4 : (rustLines text).take 4 = [l1, l2, l3, l4]) :
    (starts_with l1 "- Feature Name: `" = false →
      extract_rfc_header_text text = .error (.malformedFeatureLine l1)) ∧
    (starts_with l1 "- Feature Name: `" = true →
     starts_with l2 "- Start Date: " = false →
      extract_rfc_header_text text = .error (.malformedStartDateLine l2)) ∧
    (starts_with l1 "- Feature Name: `" = true →
     starts_with l2 "- Start Date: " = true →
     starts_with l3 "- RFC PR: " = false →
      extract_rfc_header_text text = .error (.malformedRfcPrLine l3)) ∧
    (starts_with l1 "- Feature Name: `" = true →
     starts_with l2 "- Start Date: " = true →
     starts_with l3 "- RFC PR: " = true →
     starts_with l4 "- Rust Issue: " = false →
      extract_rfc_header_text text = .error (.malformedRustIssueLine l4)) ∧
    (∀ hd : Header, extract_rfc_header_text text = .ok hd →
      starts_with l1 "- Feature Name: `" = true ∧
      starts_with l2 "- Start Date: " = true ∧
      starts_with l3 "- RFC PR: " = true ∧
      starts_with l4 "- Rust Issue: " = true ∧
      hd = ⟨l1, l2, l3, l4⟩) := by
  have he : extract_rfc_header_text text = parse_header_lines [l1, l2, l3, l4] := by
    unfold extract_rfc_header_text
    rw [h4]
  refine ⟨?_, ?_, ?_, ?_, ?_⟩
  · intro b1
    rw [he]
    simp [parse_header_lines, b1]
  · intro b1 b2
    rw [he]
    simp [parse_header_lines, b1, b2]
  · intro b1 b2 b3
    rw [he]
    simp [parse_header_lines, b1, b2, b3]
  · intro b1 b2 b3 b4
    rw [he]
    simp [parse_header_lines, b1, b2, b3, b4]
  · intro hd hok
    rw [he] at hok
    cases b1 : starts_with l1 "- Feature Name: `" with
    | false => simp [parse_header_lines, b1] at hok
    | true =>
      cases b2 : starts_with l2 "- Start Date: " with
      | false => simp [parse_header_lines, b1, b2] at hok
      | true =>
        cases b3 : starts_with l3 "- RFC PR: " with
        | false => simp [parse_header_lines, b1, b2, b3] at hok
        | true =>
          cases b4 : starts_with l4 "- Rust Issue: " with
          | false => simp [parse_header_lines, b1, b2, b3, b4] at hok
          | true =>
            simp only [parse_header_lines, b1, b2, b3, b4] at hok
            simp at hok
            exact ⟨rfl, rfl, rfl, rfl, hok.symm⟩

/-- C5 witness: a document whose second line violates the start-date prefix
is rejected with the error naming that line. -/
theorem C5_prefix_validation_witness :
    extract_rfc_header_text "- Feature Name: `foo`\nBAD\n- RFC PR: x\n- Rust Issue: y" =
      .error (.malformedStartDateLine "BAD") :=
  ((C5_prefix_validation "- Feature Name: `foo`\nBAD\n- RFC PR: x\n- Rust Issue: y"
      "- Feature Name: `foo`" "BAD" "- RFC PR: x" "- Rust Issue: y"
      (by decide)).2.1) (by decide) (by decide)

/-- C7: the tracking-issue title is the deterministic string
"Tracking Issue for RFC <pr_number>: <rfc_title>"; composing the tracking
issue from identical inputs yields byte-identical title and body; and
`create_tracking_issue` hands the gateway exactly that composed pair. -/
theorem C7_tracking_issue_compose :
    (∀ (n : Nat) (t : String),
      tracking_issue_title n t = "Tracking Issue for RFC " ++ toString n ++ ": " ++ t) ∧
    (∀ (n₁ n₂ : Nat) (t₁ t₂ : String) (f₁ f₂ : Option String),
      n₁ = n₂ → t₁ = t₂ → f₁ = f₂ →
      compose_tracking_issue n₁ t₁ f₁ = compose_tracking_issue n₂ t₂ f₂) ∧
    (∀ (gw : Gateway) (inf : InFlight) (fid : Option String),
      Header.featureName inf.header = .ok fid →
      create_tracking_issue gw inf =
        gw.create_issue (compose_tracking_issue inf.pr.pull_number inf.rfc_title fid).1
          (compose_tracking_issue inf.pr.pull_number inf.rfc_title fid).2) := by
  refine ⟨fun n t => rfl, ?_, ?_⟩
  · intro n₁ n₂ t₁ t₂ f₁ f₂ hn ht hf
    rw [hn, ht, hf]
  · intro gw inf fid hf
    unfold create_tracking_issue
    rw [hf, ok_bind]
    rfl

/-- C7 witness: the composition applied at PR 42 with title "Some RFC". -/
theorem C7_tracking_issue_compose_witness :
    compose_tracking_issue 42 "Some RFC" (some "foo")
      = compose_tracking_issue 42 "Some RFC" (some "foo") ∧
    create_tracking_issue stubGw inf0 =
      stubGw.create_issue (compose_tracking_issue 42 "Some RFC" (some "foo")).1
        (compose_tracking_issue 42 "Some RFC" (some "foo")).2 :=
  ⟨(C7_tracking_issue_compose).2.1 42 42 "Some RFC" "Some RFC"
      (some "foo") (some "foo") rfl rfl rfl,
   (C7_tracking_issue_compose).2.2 stubGw inf0 (some "foo") rfl⟩

/-- C9: when the fetched PR metadata has no head repository, the first
orchestrator step fails with the no-remote-branch error and the whole run
stops with exactly that error; when a head repository is present,
`find_branch_repo` derives the branch source from the head repository's full
name and the head branch. -/
theorem C9_no_remote_branch (gw : Gateway) (n : Nat) (pr : PrHead)
    (hget : gw.get_pull_request n = .ok pr) :
    (pr.repo = none → merge gw n = .error (.noRemoteRepo n)) ∧
    (∀ hr : HeadRepo, pr.repo = some hr →
      find_branch_repo gw n =
        .ok { repo_full_name := hr.full_name, branch := pr.ref_field }) := by
  constructor
  · intro hnone
    have hfb : find_branch_repo gw n = .error (.noRemoteRepo n) := by
      unfold find_branch_repo
      rw [hget, ok_bind, hnone]
    unfold merge
    rw [hfb, error_bind]
  · intro hr hsome
    unfold find_branch_repo
    rw [hget, ok_bind, hsome]

/-- C9 witness: a concrete run against a gateway whose PR has a deleted head
fork aborts with the no-remote-branch error. -/
theorem C9_no_remote_branch_witness :
    merge stubGw 5 = .error (.noRemoteRepo 5) :=
  (C9_no_remote_branch stubGw 5 ⟨none, "patch-1"⟩ rfl).1 rfl

/-- C10: the top-level merge never returns a success value for any gateway
behaviour and any PR number; even a fully successful pipeline ends in the
"unfinished business" error. -/
theorem C10_merge_never_succeeds (gw : Gateway) (pr_num : Nat) :
    ∃ e, merge gw pr_num = .error e := by
  unfold merge
  apply exists_error_bind
  intro branch_repo
  apply exists_error_bind
  intro rfc_title
  apply exists_error_bind
  intro filename
  apply exists_error_bind
  intro header
  apply exists_error_bind
  intro tracking_issue
  apply exists_error_bind
  intro tnum
  apply exists_error_bind
  intro posted
  exact ⟨.unfinishedBusiness, rfl⟩

/-- C3: given the extracted feature identifier, the suggestion composer
produces a fenced block tagged "suggestion" and terminated by a closing
fence, whose content is exactly: the rewritten feature line only when an
identifier is present, the start-date line unchanged from the parsed Header,
a rewritten source-PR line whose markdown link embeds the PR number, and a
rewritten target-issue line whose markdown link embeds the tracking-issue
number. -/
theorem C3_suggestion_block (h : Header) (fid : Option String) (T N : Nat)
    (hf : Header.featureName h = .ok fid) :
    update_rfc_header_body h T N =
      .ok ("```suggestion\n" ++ feature_line_of fid ++ h.start_date ++ "\n"
        ++ rfc_pr_line N ++ "\n" ++ rust_issue_line T ++ "\n```\n") ∧
    feature_line_of none = "" ∧
    (∀ f : String, feature_line_of (some f) = "- Feature Name: `" ++ f ++ "`\n") ∧
    rfc_pr_line N = "- RFC PR: [rust-lang/rfcs#" ++ toString N
      ++ "](https://github.com/rust-lang/rfcs/pull/" ++ toString N ++ ")" ∧
    rust_issue_line T = "- Rust Issue: [rust-lang/rust#" ++ toString T
      ++ "](https://github.com/rust-lang/rust/issues/" ++ toString T ++ ")" ∧
    (∀ body : String, update_rfc_header_body h T N = .ok body →
      starts_with body "```suggestion\n" = true ∧ ends_with body "```\n" = true) := by
  have hbody : update_rfc_header_body h T N =
      .ok ("```suggestion\n" ++ feature_line_of fid ++ h.start_date ++ "\n"
        ++ rfc_pr_line N ++ "\n" ++ rust_issue_line T ++ "\n```\n") := by
    unfold update_rfc_header_body
    rw [hf, ok_bind]
    simp only [feature_line_of, rfc_pr_line, rust_issue_line, String.append_assoc]
    rfl
  refine ⟨hbody, rfl, fun f => rfl, rfl, rfl, ?_⟩
  intro body hb
  rw [hbody] at hb
  have hb' : body = "```suggestion\n" ++ feature_line_of fid ++ h.start_date ++ "\n"
      ++ rfc_pr_line N ++ "\n" ++ rust_issue_line T ++ "\n```\n" := by
    simpa using hb.symm
  subst hb'
  constructor
  · simp only [String.append_assoc]
    exact starts_with_append_left _ _
  · rw [show ("\n```\n" : String) = "\n" ++ "```\n" from rfl]
    simp only [String.append_assoc]
    apply ends_with_of_append
    apply ends_with_of_append
    apply ends_with_of_append
    apply ends_with_of_append
    apply ends_with_of_append
    apply ends_with_of_append
    apply ends_with_of_append
    exact ends_with_append_right "\n" "```\n"

/-- C3 witness: the spec scenario with tracking issue 777 and PR 42. -/
theorem C3_suggestion_block_witness :
    update_rfc_header_body
        ⟨"- Feature Name: `foo`", "- Start Date: 2024-01-01",
         "- RFC PR: x", "- Rust Issue: y"⟩ 777 42 =
      .ok ("```suggestion\n" ++ feature_line_of (some "foo")
        ++ "- Start Date: 2024-01-01" ++ "\n"
        ++ rfc_pr_line 42 ++ "\n" ++ rust_issue_line 777 ++ "\n```\n") :=
  (C3_suggestion_block
    ⟨"- Feature Name: `foo`", "- Start Date: 2024-01-01",
     "- RFC PR: x", "- Rust Issue: y"⟩ (some "foo") 777 42 rfl).1

/-- C8: parsing a conforming four-line input keeps the four lines verbatim in
the Header, and the reconstruction (feature line only when an identifier is
present) reproduces the last three lines exactly while the re-rendered
feature line normalizes back to the same feature identifier — the round-trip
up to the feature-identifier normalization rule. -/
theorem C8_parse_roundtrip (text l1 l2 l3 l4 : String)
    (h4 : (rustLines text).take 4 = [l1, l2, l3, l4])
    (p1 : starts_with l1 "- Feature Name: `" = true)
    (p2 : starts_with l2 "- Start Date: " = true)
    (p3 : starts_with l3 "- RFC PR: " = true)
    (p4 : starts_with l4 "- Rust Issue: " = true) :
    extract_rfc_header_text text = .ok ⟨l1, l2, l3, l4⟩ ∧
    (∀ f : String, Header.featureName ⟨l1, l2, l3, l4⟩ = .ok (some f) →
      reconstruct_header_lines ⟨l1, l2, l3, l4⟩ =
        .ok ["- Feature Name: `" ++ f ++ "`", l2, l3, l4] ∧
      Header.featureName ⟨"- Feature Name: `" ++ f ++ "`", l2, l3, l4⟩ =
        .ok (some f)) ∧
    (Header.featureName ⟨l1, l2, l3, l4⟩ = .ok none →
      reconstruct_header_lines ⟨l1, l2, l3, l4⟩ = .ok [l2, l3, l4]) := by
  refine ⟨?_, ?_, ?_⟩
  · unfold extract_rfc_header_text
    rw [h4]
    simp [parse_header_lines, p1, p2, p3, p4]
  · intro f hf
    obtain ⟨h1, h2, h3⟩ := featureName_some_inv _ _ hf
    constructor
    · unfold reconstruct_header_lines
      rw [hf, ok_bind]
      rfl
    · exact featureName_rendered f l2 l3 l4 h1 h2 h3
  · intro hn
    unfold reconstruct_header_lines
    rw [hn, ok_bind]
    rfl

/-- C8 witness: the spec's conforming scenario document parses verbatim and
its reconstruction re-renders the feature line for identifier "foo". -/
theorem C8_parse_roundtrip_witness :
    extract_rfc_header_text
        "- Feature Name: `foo`\n- Start Date: 2024-01-01\n- RFC PR: (leave this empty)\n- Rust Issue: (leave this empty)\n" =
      .ok ⟨"- Feature Name: `foo`", "- Start Date: 2024-01-01",
           "- RFC PR: (leave this empty)", "- Rust Issue: (leave this empty)"⟩ ∧
    reconstruct_header_lines
        ⟨"- Feature Name: `foo`", "- Start Date: 2024-01-01",
         "- RFC PR: (leave this empty)", "- Rust Issue: (leave this empty)"⟩ =
      .ok ["- Feature Name: `" ++ "foo" ++ "`", "- Start Date: 2024-01-01",
           "- RFC PR: (leave this empty)", "- Rust Issue: (leave this empty)"] :=
  ⟨(C8_parse_roundtrip
      "- Feature Name: `foo`\n- Start Date: 2024-01-01\n- RFC PR: (leave this empty)\n- Rust Issue: (leave this empty)\n"
      "- Feature Name: `foo`" "- Start Date: 2024-01-01"
      "- RFC PR: (leave this empty)" "- Rust Issue: (leave this empty)"
      (by decide) (by decide) (by decide) (by decide) (by decide)).1,
   ((C8_parse_roundtrip
      "- Feature Name: `foo`\n- Start Date: 2024-01-01\n- RFC PR: (leave this empty)\n- Rust Issue: (leave this empty)\n"
      "- Feature Name: `foo`" "- Start Date: 2024-01-01"
      "- RFC PR: (leave this empty)" "- Rust Issue: (leave this empty)"
      (by decide) (by decide) (by decide) (by decide) (by decide)).2.1 "foo" rfl).1⟩

end RfcMergePr
